import Mathlib

/-!
Verification development for the Trivia Time API (`src/index.ts`).

The server exposes two JSON endpoints, `GET /v1/categories` and
`GET /v1/trivia`, over an immutable in-memory data store loaded from
bundled JSON files.  This file gives a shallow embedding of the request
handlers, the error path and the serialization, and proves the
functional, error-handling and frame properties of the handlers.

Conventions of the embedding:
* JSON numbers occurring in the data (ids, answers, categories) are
  modelled as `Int`.  Query-parameter strings matching `^[0-9]+$` are
  parsed by `parseDigits`, the idealization of JavaScript `Number` on
  digit strings (exact arithmetic instead of IEEE doubles; the two agree
  on every id small enough to be representable exactly).
* The random comparator shuffle `filteredTrivia.sort(() => Math.random() - 0.5)`
  rearranges the elements of its target array in some order that depends
  on the outcomes of `Math.random`; the handler is therefore
  parameterized by a function `shuffle : List Trivia → List Trivia`
  standing for one such outcome, and theorems that need it assume
  `shuffle l` is a permutation of `l`.
* The Elysia schema (`t.Object` with `pattern: "^[0-9]+$"` on `category`
  and `limit` and `t.Enum` on `difficulty`) validates the query before
  the handler body runs; `Query` is the shape of a query that passed the
  schema: `category` a digit string, `difficulty` an optional member of
  the four-value enum, `limit` an optional digit string.
-/

namespace TriviaTime

/-- A JSON value, used to model the output of `JSON.stringify`. -/
inductive Json where
  | num : Int → Json
  | str : String → Json
  | arr : List Json → Json
  | obj : List (String × Json) → Json

/-- The keys of a JSON object, in order; `[]` on non-objects. -/
def Json.keys : Json → List String
  | .obj fields => fields.map Prod.fst
  | _ => []

/-- A category record from `data/categories.json`:
`{ id, image, name }` (field set and order as documented in the
handler's OpenAPI schema). -/
structure Category where
  id : Int
  image : String
  name : String
deriving DecidableEq

/-- One answer option of a trivia question: `{ id, text }`. -/
structure TriviaOption where
  id : Int
  text : String
deriving DecidableEq

/-- A trivia record from `data/trivia.json`:
`{ id, question, options, answer, category, difficulty }`.  The
`difficulty` field is the raw string stored in the data (the comparison
in the handler is a plain string equality `t.difficulty === difficulty`). -/
structure Trivia where
  id : Int
  question : String
  options : List TriviaOption
  answer : Int
  category : Int
  difficulty : String
deriving DecidableEq

/-- The `difficulty` query enum of the schema:
`t.Enum({ easy, medium, hard, any })`. -/
inductive Difficulty where
  | easy
  | medium
  | hard
  | any
deriving DecidableEq

/-- The string value carried by each member of the difficulty enum. -/
def Difficulty.toString : Difficulty → String
  | .easy => "easy"
  | .medium => "medium"
  | .hard => "hard"
  | .any => "any"

/-- The body of a `Response` produced by the server: an error object
from `sendError`, the trivia list of a successful `/v1/trivia` call, or
the category list of a successful `/v1/categories` call. -/
structure ErrorBody where
  error_type : String
  error : String
  docs : String
deriving DecidableEq

inductive Body where
  | err : ErrorBody → Body
  | triviaList : List Trivia → Body
  | categoryList : List Category → Body
deriving DecidableEq

/-- A `Response`: HTTP status plus JSON body. -/
structure Response where
  status : Nat
  body : Body
deriving DecidableEq

def BASE_URL : String := "https://trivia-time-api.onrender.com"

/-- `sendError` from `src/index.ts`: builds the uniform error response
`{ error_type: code, error, docs: BASE_URL + "/docs" }` with the given
status.  (The source declares a default status of 500, but every call
site passes the status explicitly, so it is taken as a plain argument.) -/
def sendError (error : String) (status : Nat) (code : String) : Response :=
  { status := status,
    body := Body.err { error_type := code, error := error, docs := BASE_URL ++ "/docs" } }

/-- The error codes Elysia hands to the `onError` hook. -/
inductive ElysiaCode where
  | UNKNOWN
  | NOT_FOUND
  | PARSE
  | VALIDATION
  | INTERNAL_SERVER_ERROR
deriving DecidableEq

/-- The `statusCodes` table inside the `onError` hook. -/
def statusCodes : ElysiaCode → Nat
  | .UNKNOWN => 500
  | .NOT_FOUND => 404
  | .PARSE => 400
  | .VALIDATION => 400
  | .INTERNAL_SERVER_ERROR => 500

/-- The string name of an Elysia error code (the `code` value itself,
which `onError` passes through to `sendError` as `error_type`). -/
def ElysiaCode.name : ElysiaCode → String
  | .UNKNOWN => "UNKNOWN"
  | .NOT_FOUND => "NOT_FOUND"
  | .PARSE => "PARSE"
  | .VALIDATION => "VALIDATION"
  | .INTERNAL_SERVER_ERROR => "INTERNAL_SERVER_ERROR"

/-- The `onError` hook: `sendError(error.message, statusCodes[code], code)`. -/
def onError (code : ElysiaCode) (message : String) : Response :=
  sendError message (statusCodes code) code.name

/-- The test of the schema pattern `^[0-9]+$`: non-empty, digits only. -/
def isDigits (s : String) : Bool :=
  !s.data.isEmpty && s.data.all (fun c => c.isDigit)

/-- JavaScript `Number(s)` for a string matching `^[0-9]+$` (exact
decimal value of the digit string). -/
def parseDigits (s : String) : Nat :=
  s.data.foldl (fun n c => n * 10 + (c.toNat - 48)) 0

/-- A query to `/v1/trivia` as it reaches the handler body, i.e. after
Elysia's schema validation: `category` is a digit string, `difficulty`
(if present) one of the enum values, `limit` (if present) a digit
string.  `none` models an omitted optional parameter. -/
structure Query where
  category : String
  difficulty : Option Difficulty
  limit : Option String
deriving DecidableEq

/-- Well-formedness of a schema-validated query: the pattern
`^[0-9]+$` holds of `category` and of `limit` when present. -/
def Query.wf (q : Query) : Bool :=
  isDigits q.category &&
    (match q.limit with
     | some s => isDigits s
     | none => true)

/-- The destructuring default `difficulty = "any"`. -/
def effDifficulty (q : Query) : Difficulty :=
  q.difficulty.getD Difficulty.any

/-- The destructuring default `limit = 10` followed by `Number(limit)`. -/
def effLimit (q : Query) : Nat :=
  match q.limit with
  | some s => parseDigits s
  | none => 10

/-- The category-existence test
`categories.find((c) => c.id === Number(category))`. -/
def categoryExists (categories : List Category) (category : Nat) : Bool :=
  (categories.find? (fun c => decide (c.id = (category : Int)))).isSome

/-- The filter predicate of the handler:
`t.category === Number(category) && (difficulty === "any" || t.difficulty === difficulty)`. -/
def matchesFilter (category : Nat) (difficulty : Difficulty) (t : Trivia) : Bool :=
  decide (t.category = (category : Int)) &&
    (decide (difficulty = Difficulty.any) || decide (t.difficulty = difficulty.toString))

/-- The `/v1/trivia` handler body from `src/index.ts` (lines 114-153):
reject with 404 `NOT_FOUND` when no category has the requested id,
then with 400 `VALIDATION` when the effective limit is outside `[1, 50]`,
otherwise filter by category and difficulty, shuffle, truncate to the
limit and answer 200. -/
def handleTrivia (categories : List Category) (trivia : List Trivia)
    (q : Query) (shuffle : List Trivia → List Trivia) : Response :=
  let category := parseDigits q.category
  let difficulty := effDifficulty q
  let limit := effLimit q
  if !categoryExists categories category then
    sendError "Invalid value for parameter \x27category\x27." 404 "NOT_FOUND"
  else if limit < 1 ∨ limit > 50 then
    sendError "Invalid value for parameter \x27limit\x27. Must be between 1 and 50." 400 "VALIDATION"
  else
    let filteredTrivia := trivia.filter (matchesFilter category difficulty)
    let shuffledTrivia := shuffle filteredTrivia
    let limitedTrivia := shuffledTrivia.take limit
    { status := 200, body := Body.triviaList limitedTrivia }

/-- The `/v1/categories` handler: `JSON.stringify(categories)` with
status 200; the stored list is returned as-is. -/
def handleCategories (categories : List Category) : Response :=
  { status := 200, body := Body.categoryList categories }

/-- The immutable data store: the module-level `categories` and
`trivia` bindings, loaded once at process start. -/
structure Store where
  categories : List Category
  trivia : List Trivia
deriving DecidableEq

/-- A `/v1/trivia` request with explicit state passing: the handler
reads the store and returns it unchanged.  In the source the only
in-place operation is `filteredTrivia.sort(...)`, and `filteredTrivia`
is the fresh array produced by `trivia.filter(...)` (JavaScript
`Array.prototype.filter` always allocates a new array), so the global
`trivia` and `categories` arrays are never written; the heap model
below (`triviaPipeline`) makes this aliasing argument explicit. -/
def triviaRequest (st : Store) (q : Query) (shuffle : List Trivia → List Trivia) :
    Response × Store :=
  (handleTrivia st.categories st.trivia q shuffle, st)

/-- A `/v1/categories` request with explicit state passing: reads the
store, writes nothing. -/
def categoriesRequest (st : Store) : Response × Store :=
  (handleCategories st.categories, st)

/-! ### Heap model of the filter / sort / slice pipeline

JavaScript arrays are heap objects mutated through references.  To
settle the frame claim about the in-place `sort`, the pipeline of the
handler is replayed over an explicit heap of arrays: `filter` and
`slice` allocate fresh arrays, `sort` overwrites its target in place. -/

/-- A heap of JavaScript arrays of trivia records; a reference is an
index into the list. -/
structure JsHeap where
  arrays : List (List Trivia)
deriving DecidableEq

/-- Dereference: the array a reference points to. -/
def readArr (h : JsHeap) (r : Nat) : List Trivia :=
  h.arrays.getD r []

/-- Allocate a fresh array, returning the new heap and its reference. -/
def alloc (h : JsHeap) (a : List Trivia) : JsHeap × Nat :=
  ({ arrays := h.arrays ++ [a] }, h.arrays.length)

/-- `Array.prototype.filter`: reads the target, allocates a fresh array
holding the matching elements. -/
def filterAlloc (h : JsHeap) (r : Nat) (p : Trivia → Bool) : JsHeap × Nat :=
  alloc h ((readArr h r).filter p)

/-- `Array.prototype.sort` with the random comparator: rearranges the
elements of the target array in place (one permutation outcome of the
comparator), returning a reference to the same array. -/
def sortInPlace (h : JsHeap) (r : Nat) (shuffle : List Trivia → List Trivia) :
    JsHeap × Nat :=
  ({ arrays := h.arrays.set r (shuffle (readArr h r)) }, r)

/-- `Array.prototype.slice(0, n)`: reads the target, allocates a fresh
array holding its first `n` elements. -/
def sliceAlloc (h : JsHeap) (r : Nat) (n : Nat) : JsHeap × Nat :=
  alloc h ((readArr h r).take n)

/-- The success path of the trivia handler replayed over the heap:
`trivia.filter(...)` then `.sort(...)` then `.slice(0, limit)`, with
`r` the reference to the global `trivia` array.  Returns the final heap
and the reference to the response array. -/
def triviaPipeline (h : JsHeap) (r : Nat) (category : Nat)
    (difficulty : Difficulty) (limit : Nat)
    (shuffle : List Trivia → List Trivia) : JsHeap × Nat :=
  let step1 := filterAlloc h r (matchesFilter category difficulty)
  let step2 := sortInPlace step1.1 step1.2 shuffle
  sliceAlloc step2.1 step2.2 limit

/-! ### Serialization (`JSON.stringify`) -/

/-- Serialization of an option record, keys in documented order. -/
def TriviaOption.toJson (o : TriviaOption) : Json :=
  Json.obj [("id", Json.num o.id), ("text", Json.str o.text)]

/-- Serialization of a trivia record, keys in documented order. -/
def Trivia.toJson (t : Trivia) : Json :=
  Json.obj
    [("id", Json.num t.id),
     ("question", Json.str t.question),
     ("options", Json.arr (t.options.map TriviaOption.toJson)),
     ("answer", Json.num t.answer),
     ("category", Json.num t.category),
     ("difficulty", Json.str t.difficulty)]

/-- Serialization of a category record, keys in documented order. -/
def Category.toJson (c : Category) : Json :=
  Json.obj [("id", Json.num c.id), ("image", Json.str c.image), ("name", Json.str c.name)]

/-- Serialization of the error object built by `sendError`, keys in the
order of the object literal in the source. -/
def ErrorBody.toJson (e : ErrorBody) : Json :=
  Json.obj
    [("error_type", Json.str e.error_type),
     ("error", Json.str e.error),
     ("docs", Json.str e.docs)]

/-- `JSON.stringify` of a response body. -/
def Body.toJson : Body → Json
  | .err e => e.toJson
  | .triviaList ts => Json.arr (ts.map Trivia.toJson)
  | .categoryList cs => Json.arr (cs.map Category.toJson)

/-! ### Case analysis of the trivia handler -/

/-- Exhaustive case analysis of `handleTrivia`: the 404 branch, the 400
branch, or the 200 branch with the filter/shuffle/truncate pipeline. -/
theorem handleTrivia_eq (categories : List Category) (trivia : List Trivia)
    (q : Query) (shuffle : List Trivia → List Trivia) :
    (categoryExists categories (parseDigits q.category) = false ∧
      handleTrivia categories trivia q shuffle =
        sendError "Invalid value for parameter \x27category\x27." 404 "NOT_FOUND") ∨
    (categoryExists categories (parseDigits q.category) = true ∧
      (effLimit q < 1 ∨ effLimit q > 50) ∧
      handleTrivia categories trivia q shuffle =
        sendError "Invalid value for parameter \x27limit\x27. Must be between 1 and 50." 400 "VALIDATION") ∨
    (categoryExists categories (parseDigits q.category) = true ∧
      1 ≤ effLimit q ∧ effLimit q ≤ 50 ∧
      handleTrivia categories trivia q shuffle =
        { status := 200,
          body := Body.triviaList
            ((shuffle (trivia.filter
               (matchesFilter (parseDigits q.category) (effDifficulty q)))).take
              (effLimit q)) }) := by
  by_cases hc : categoryExists categories (parseDigits q.category) = true
  · by_cases hl : effLimit q < 1 ∨ effLimit q > 50
    · refine Or.inr (Or.inl ⟨hc, hl, ?_⟩)
      simp only [handleTrivia, hc, Bool.not_true]
      rw [if_neg (by simp), if_pos hl]
    · refine Or.inr (Or.inr ⟨hc, by omega, by omega, ?_⟩)
      simp only [handleTrivia, hc, Bool.not_true]
      rw [if_neg (by simp), if_neg hl]
  · refine Or.inl ⟨by simpa using hc, ?_⟩
    simp only [handleTrivia]
    rw [if_pos (by simpa using hc)]

/-! ### Sample data for concrete evaluations -/

def sampleCategories : List Category :=
  [{ id := 1, image := "", name := "General Knowledge" },
   { id := 2, image := "", name := "Science" }]

def sampleOptions : List TriviaOption :=
  [{ id := 1, text := "A" }, { id := 2, text := "B" }]

def sampleTrivia : List Trivia :=
  [{ id := 1, question := "Q1", options := sampleOptions, answer := 1,
     category := 1, difficulty := "easy" },
   { id := 2, question := "Q2", options := sampleOptions, answer := 2,
     category := 1, difficulty := "hard" },
   { id := 3, question := "Q3", options := sampleOptions, answer := 1,
     category := 2, difficulty := "easy" }]

example : parseDigits "10" = 10 := rfl

example : parseDigits "007" = 7 := by decide

/-! ### Helper characterizations -/

theorem matchesFilter_eq_true (category : Nat) (difficulty : Difficulty) (t : Trivia) :
    matchesFilter category difficulty t = true ↔
      t.category = (category : Int) ∧
        (difficulty = Difficulty.any ∨ t.difficulty = difficulty.toString) := by
  simp [matchesFilter]

theorem categoryExists_iff (categories : List Category) (category : Nat) :
    categoryExists categories category = true ↔
      ∃ c ∈ categories, c.id = (category : Int) := by
  simp [categoryExists, List.find?_isSome]

/-- In the 200 case, the returned list is the truncated shuffle of the
filtered collection. -/
theorem handleTrivia_out_eq (categories : List Category) (trivia : List Trivia)
    (q : Query) (shuffle : List Trivia → List Trivia) (out : List Trivia)
    (hout : handleTrivia categories trivia q shuffle =
      { status := 200, body := Body.triviaList out }) :
    out = (shuffle (trivia.filter
        (matchesFilter (parseDigits q.category) (effDifficulty q)))).take (effLimit q) := by
  rcases handleTrivia_eq categories trivia q shuffle with ⟨_, h⟩ | ⟨_, _, h⟩ | ⟨_, _, _, h⟩
  · rw [hout] at h
    simp [sendError] at h
  · rw [hout] at h
    simp [sendError] at h
  · rw [hout] at h
    simp only [Response.mk.injEq, Body.triviaList.injEq, true_and] at h
    exact h

example :
    handleTrivia sampleCategories sampleTrivia
      { category := "1", difficulty := some Difficulty.easy, limit := some "2" } id =
    { status := 200,
      body := Body.triviaList
        [{ id := 1, question := "Q1", options := sampleOptions, answer := 1,
           category := 1, difficulty := "easy" }] } := by decide

example :
    (handleTrivia sampleCategories sampleTrivia
      { category := "99999", difficulty := none, limit := some "0" } id).status = 404 := by decide

/-! ### Claim theorems -/

/-- C1: for every `/v1/trivia` request that succeeds with status 200 (for
any permutation outcome of the shuffle), every question in the returned
array has its `category` field equal to the requested category id, and
when the requested difficulty is not `any`, every returned question's
`difficulty` equals the requested difficulty. -/
theorem trivia_matches_request (categories : List Category) (trivia : List Trivia)
    (q : Query) (shuffle : List Trivia → List Trivia) (out : List Trivia)
    (hsh : ∀ l, List.Perm (shuffle l) l)
    (hout : handleTrivia categories trivia q shuffle =
      { status := 200, body := Body.triviaList out }) :
    ∀ t ∈ out, t.category = (parseDigits q.category : Int) ∧
      (effDifficulty q ≠ Difficulty.any →
        t.difficulty = (effDifficulty q).toString) := by
  have hq := handleTrivia_out_eq categories trivia q shuffle out hout
  subst hq
  intro t ht
  have h1 : t ∈ shuffle (trivia.filter
      (matchesFilter (parseDigits q.category) (effDifficulty q))) :=
    List.take_subset _ _ ht
  have h2 := (hsh _).mem_iff.mp h1
  have h3 := (List.mem_filter.mp h2).2
  rw [matchesFilter_eq_true] at h3
  refine ⟨h3.1, fun hne => ?_⟩
  rcases h3.2 with h | h
  · exact absurd h hne
  · exact h

/-- The concrete request `category=1&difficulty=easy&limit=2`. -/
def sampleQueryEasy : Query :=
  { category := "1", difficulty := some Difficulty.easy, limit := some "2" }

/-- The concrete easy question of the sample store. -/
def sampleEasyQuestion : Trivia :=
  { id := 1, question := "Q1", options := sampleOptions, answer := 1,
    category := 1, difficulty := "easy" }

/-- Witness for C1: the concrete request `category=1&difficulty=easy&limit=2`
against the sample store returns a question of category 1 and difficulty
`easy`. -/
theorem trivia_matches_request_witness :
    sampleEasyQuestion.category = (parseDigits "1" : Int) ∧
      sampleEasyQuestion.difficulty = (effDifficulty sampleQueryEasy).toString :=
  ⟨(trivia_matches_request sampleCategories sampleTrivia sampleQueryEasy id
      [sampleEasyQuestion]
      (fun l => List.Perm.refl l) (by decide) sampleEasyQuestion (by decide)).1,
   (trivia_matches_request sampleCategories sampleTrivia sampleQueryEasy id
      [sampleEasyQuestion]
      (fun l => List.Perm.refl l) (by decide) sampleEasyQuestion (by decide)).2
     (by decide)⟩

/-- C2: for every `/v1/trivia` request that succeeds with status 200, the
length of the returned array is at most the effective limit and at most
the number of questions matching the category/difficulty filter. -/
theorem trivia_length_le (categories : List Category) (trivia : List Trivia)
    (q : Query) (shuffle : List Trivia → List Trivia) (out : List Trivia)
    (hsh : ∀ l, List.Perm (shuffle l) l)
    (hout : handleTrivia categories trivia q shuffle =
      { status := 200, body := Body.triviaList out }) :
    out.length ≤ effLimit q ∧
      out.length ≤ (trivia.filter
        (matchesFilter (parseDigits q.category) (effDifficulty q))).length := by
  have hq := handleTrivia_out_eq categories trivia q shuffle out hout
  subst hq
  have hlen := (hsh (trivia.filter
      (matchesFilter (parseDigits q.category) (effDifficulty q)))).length_eq
  rw [List.length_take]
  omega

/-- The concrete request `category=1&limit=1` (difficulty omitted). -/
def sampleQueryLimitOne : Query :=
  { category := "1", difficulty := none, limit := some "1" }

/-- Witness for C2: the concrete request `category=1&limit=1` returns one
question out of the two matching ones. -/
theorem trivia_length_le_witness :
    [sampleEasyQuestion].length ≤ effLimit sampleQueryLimitOne ∧
    [sampleEasyQuestion].length ≤
      (sampleTrivia.filter (matchesFilter (parseDigits "1")
        (effDifficulty sampleQueryLimitOne))).length :=
  trivia_length_le sampleCategories sampleTrivia sampleQueryLimitOne id _
    (fun l => List.Perm.refl l) (by decide)

/-- C5: for every `/v1/trivia` request that succeeds with status 200 and
whose effective limit is at least the number of matching questions, and
for every permutation outcome of the shuffle, the returned array is a
permutation of the matching questions: the shuffle-and-truncate step
changes order only, never set content. -/
theorem trivia_full_limit_perm (categories : List Category) (trivia : List Trivia)
    (q : Query) (shuffle : List Trivia → List Trivia) (out : List Trivia)
    (hsh : ∀ l, List.Perm (shuffle l) l)
    (hout : handleTrivia categories trivia q shuffle =
      { status := 200, body := Body.triviaList out })
    (hge : (trivia.filter
        (matchesFilter (parseDigits q.category) (effDifficulty q))).length ≤
      effLimit q) :
    List.Perm out (trivia.filter
      (matchesFilter (parseDigits q.category) (effDifficulty q))) := by
  have hq := handleTrivia_out_eq categories trivia q shuffle out hout
  subst hq
  have hperm := hsh (trivia.filter
      (matchesFilter (parseDigits q.category) (effDifficulty q)))
  rw [List.take_of_length_le (by rw [hperm.length_eq]; exact hge)]
  exact hperm

/-- The concrete request `category=1&difficulty=hard&limit=50`. -/
def sampleQueryHard : Query :=
  { category := "1", difficulty := some Difficulty.hard, limit := some "50" }

/-- The concrete hard question of the sample store. -/
def sampleHardQuestion : Trivia :=
  { id := 2, question := "Q2", options := sampleOptions, answer := 2,
    category := 1, difficulty := "hard" }

/-- Witness for C5: the concrete request `category=1&difficulty=hard&limit=50`
returns exactly the single matching question. -/
theorem trivia_full_limit_perm_witness :
    List.Perm [sampleHardQuestion]
      (sampleTrivia.filter (matchesFilter (parseDigits "1")
        (effDifficulty sampleQueryHard))) :=
  trivia_full_limit_perm sampleCategories sampleTrivia sampleQueryHard id _
    (fun l => List.Perm.refl l) (by decide) (by decide)

/-- C10: for every `/v1/trivia` request whose category matches an existing
category id and whose effective limit lies in `[1, 50]`, if no question
matches the category/difficulty filter then the response is status 200
with an empty array: an empty result set is not an error. -/
theorem trivia_empty_result_ok (categories : List Category) (trivia : List Trivia)
    (q : Query) (shuffle : List Trivia → List Trivia)
    (hsh : ∀ l, List.Perm (shuffle l) l)
    (hcat : ∃ c ∈ categories, c.id = (parseDigits q.category : Int))
    (hlim : 1 ≤ effLimit q ∧ effLimit q ≤ 50)
    (hempty : trivia.filter
      (matchesFilter (parseDigits q.category) (effDifficulty q)) = []) :
    handleTrivia categories trivia q shuffle =
      { status := 200, body := Body.triviaList [] } := by
  rcases handleTrivia_eq categories trivia q shuffle with
      ⟨hc, _⟩ | ⟨_, hl, _⟩ | ⟨_, _, _, h⟩
  · rw [← categoryExists_iff] at hcat
    rw [hcat] at hc
    cases hc
  · omega
  · rw [h, hempty, (hsh []).eq_nil, List.take_nil]

/-- The concrete request `category=2&difficulty=hard&limit=10`, matching
no question of the sample store. -/
def sampleQueryNoMatch : Query :=
  { category := "2", difficulty := some Difficulty.hard, limit := some "10" }

/-- Witness for C10: the concrete request `category=2&difficulty=hard&limit=10`
matches no question and yields 200 with an empty array. -/
theorem trivia_empty_result_ok_witness :
    handleTrivia sampleCategories sampleTrivia sampleQueryNoMatch id =
      { status := 200, body := Body.triviaList [] } :=
  trivia_empty_result_ok sampleCategories sampleTrivia sampleQueryNoMatch id
    (fun l => List.Perm.refl l) (by decide) (by decide) (by decide)

/-- C3: for every `/v1/trivia` request whose `category` parameter is a
digit string parsing to an integer that equals no existing category id,
the handler answers 404 with `error_type = "NOT_FOUND"` — regardless of
the `limit` parameter, so this check takes precedence over the
limit-range check. -/
theorem unknown_category_not_found (categories : List Category) (trivia : List Trivia)
    (q : Query) (shuffle : List Trivia → List Trivia)
    (hdig : isDigits q.category = true)
    (hnone : ∀ c ∈ categories, c.id ≠ (parseDigits q.category : Int)) :
    handleTrivia categories trivia q shuffle =
      { status := 404,
        body := Body.err
          { error_type := "NOT_FOUND",
            error := "Invalid value for parameter \x27category\x27.",
            docs := BASE_URL ++ "/docs" } } := by
  have hc : categoryExists categories (parseDigits q.category) = false := by
    rw [Bool.eq_false_iff]
    intro h
    rcases (categoryExists_iff categories (parseDigits q.category)).mp h with ⟨c, hc, hid⟩
    exact hnone c hc hid
  rcases handleTrivia_eq categories trivia q shuffle with
      ⟨_, h⟩ | ⟨hc2, _, _⟩ | ⟨hc2, _, _, _⟩
  · exact h
  · rw [hc] at hc2; cases hc2
  · rw [hc] at hc2; cases hc2

/-- The concrete request `category=99999&limit=0`: unknown category and
out-of-range limit at once. -/
def sampleQueryUnknownCategory : Query :=
  { category := "99999", difficulty := none, limit := some "0" }

/-- Witness for C3: `category=99999&limit=0` yields 404 `NOT_FOUND` even
though the limit is also out of range. -/
theorem unknown_category_not_found_witness :
    handleTrivia sampleCategories sampleTrivia sampleQueryUnknownCategory id =
      { status := 404,
        body := Body.err
          { error_type := "NOT_FOUND",
            error := "Invalid value for parameter \x27category\x27.",
            docs := BASE_URL ++ "/docs" } } :=
  unknown_category_not_found sampleCategories sampleTrivia
    sampleQueryUnknownCategory id (by decide) (by decide)

/-- C4: for every `/v1/trivia` request whose `category` matches an
existing category id but whose `limit` parameter is a digit string
parsing to an integer outside `[1, 50]`, the handler answers 400 with
`error_type = "VALIDATION"`. -/
theorem bad_limit_validation (categories : List Category) (trivia : List Trivia)
    (q : Query) (shuffle : List Trivia → List Trivia) (s : String)
    (hcat : ∃ c ∈ categories, c.id = (parseDigits q.category : Int))
    (hlim : q.limit = some s) (hdig : isDigits s = true)
    (hrange : parseDigits s < 1 ∨ parseDigits s > 50) :
    handleTrivia categories trivia q shuffle =
      { status := 400,
        body := Body.err
          { error_type := "VALIDATION",
            error := "Invalid value for parameter \x27limit\x27. Must be between 1 and 50.",
            docs := BASE_URL ++ "/docs" } } := by
  have he : effLimit q = parseDigits s := by
    simp [effLimit, hlim]
  rcases handleTrivia_eq categories trivia q shuffle with
      ⟨hc, _⟩ | ⟨_, _, h⟩ | ⟨_, h1, h2, _⟩
  · rw [← categoryExists_iff] at hcat
    rw [hcat] at hc
    cases hc
  · exact h
  · rw [he] at h1 h2
    omega

/-- The concrete request `category=1&limit=51`. -/
def sampleQueryBigLimit : Query :=
  { category := "1", difficulty := none, limit := some "51" }

/-- Witness for C4: `category=1&limit=51` yields 400 `VALIDATION`. -/
theorem bad_limit_validation_witness :
    handleTrivia sampleCategories sampleTrivia sampleQueryBigLimit id =
      { status := 400,
        body := Body.err
          { error_type := "VALIDATION",
            error := "Invalid value for parameter \x27limit\x27. Must be between 1 and 50.",
            docs := BASE_URL ++ "/docs" } } :=
  bad_limit_validation sampleCategories sampleTrivia sampleQueryBigLimit id "51"
    (by decide) rfl (by decide) (by decide)

/-- C6: `/v1/categories` takes no parameters and answers 200 with the
stored category list as-is and in stored order; its serialization is a
JSON array whose elements are objects with exactly the keys `id`,
`image`, `name`. -/
theorem categories_endpoint (st : Store) :
    (categoriesRequest st).1.status = 200 ∧
    (categoriesRequest st).1.body = Body.categoryList st.categories ∧
    Body.toJson (categoriesRequest st).1.body =
      Json.arr (st.categories.map Category.toJson) ∧
    ∀ c ∈ st.categories, Json.keys (Category.toJson c) = ["id", "image", "name"] := by
  refine ⟨rfl, rfl, rfl, fun c _ => rfl⟩

/-- C7: omitting `difficulty` makes the handler behave exactly as if
`difficulty=any` had been sent, and omitting `limit` exactly as if
`limit=10` had been sent. -/
theorem trivia_defaults (categories : List Category) (trivia : List Trivia)
    (q : Query) (shuffle : List Trivia → List Trivia) :
    (handleTrivia categories trivia { q with difficulty := none } shuffle =
      handleTrivia categories trivia { q with difficulty := some Difficulty.any } shuffle) ∧
    (handleTrivia categories trivia { q with limit := none } shuffle =
      handleTrivia categories trivia { q with limit := some "10" } shuffle) := by
  have h10 : parseDigits "10" = 10 := rfl
  constructor
  · simp [handleTrivia, effDifficulty, effLimit]
  · simp [handleTrivia, effDifficulty, effLimit, h10]

/-- C8: every error response of the server — whether produced by the
`onError` hook or by the trivia handler's own `sendError` calls — has a
body serializing to a JSON object with exactly the keys
`error_type`, `error`, `docs`; `error_type` is one of the five codes,
`docs` is the fixed documentation URL, and the status is 400 for
`VALIDATION` and `PARSE`, 404 for `NOT_FOUND`, and 500 for
`INTERNAL_SERVER_ERROR` and `UNKNOWN`. -/
theorem error_response_shape :
    (∀ (code : ElysiaCode) (msg : String) (e : ErrorBody),
      (onError code msg).body = Body.err e →
        e.error = msg ∧
        e.docs = BASE_URL ++ "/docs" ∧
        Json.keys (Body.toJson (onError code msg).body) =
          ["error_type", "error", "docs"] ∧
        e.error_type ∈
          ["VALIDATION", "NOT_FOUND", "INTERNAL_SERVER_ERROR", "UNKNOWN", "PARSE"] ∧
        ((e.error_type = "VALIDATION" ∨ e.error_type = "PARSE") →
          (onError code msg).status = 400) ∧
        (e.error_type = "NOT_FOUND" → (onError code msg).status = 404) ∧
        ((e.error_type = "INTERNAL_SERVER_ERROR" ∨ e.error_type = "UNKNOWN") →
          (onError code msg).status = 500)) ∧
    (∀ (categories : List Category) (trivia : List Trivia) (q : Query)
      (shuffle : List Trivia → List Trivia) (e : ErrorBody),
      (handleTrivia categories trivia q shuffle).body = Body.err e →
        e.docs = BASE_URL ++ "/docs" ∧
        Json.keys (Body.toJson (handleTrivia categories trivia q shuffle).body) =
          ["error_type", "error", "docs"] ∧
        ((e.error_type = "NOT_FOUND" ∧
            (handleTrivia categories trivia q shuffle).status = 404) ∨
          (e.error_type = "VALIDATION" ∧
            (handleTrivia categories trivia q shuffle).status = 400))) := by
  constructor
  · intro code msg e h
    cases code <;>
      (simp only [onError, sendError, ElysiaCode.name, statusCodes, Body.err.injEq] at h
       subst h
       refine ⟨rfl, rfl, rfl, by simp, ?_, ?_, ?_⟩ <;>
         (intro hx
          first
            | rfl
            | simp at hx))
  · intro categories trivia q shuffle e hbody
    rcases handleTrivia_eq categories trivia q shuffle with
        ⟨_, h⟩ | ⟨_, _, h⟩ | ⟨_, _, _, h⟩
    · rw [h] at hbody ⊢
      simp only [sendError, Body.err.injEq] at hbody
      subst hbody
      exact ⟨rfl, rfl, Or.inl ⟨rfl, rfl⟩⟩
    · rw [h] at hbody ⊢
      simp only [sendError, Body.err.injEq] at hbody
      subst hbody
      exact ⟨rfl, rfl, Or.inr ⟨rfl, rfl⟩⟩
    · rw [h] at hbody
      cases hbody

/-- Witness for C8: the `onError` hook at code `PARSE` and an arbitrary
message produces status 400, and the trivia handler's 404 error body has
`error_type = "NOT_FOUND"`. -/
theorem error_response_shape_witness :
    (onError ElysiaCode.PARSE "bad body").status = 400 ∧
    Json.keys (Body.toJson (onError ElysiaCode.PARSE "bad body").body) =
      ["error_type", "error", "docs"] :=
  ⟨(error_response_shape.1 ElysiaCode.PARSE "bad body"
      { error_type := "PARSE", error := "bad body", docs := BASE_URL ++ "/docs" }
      rfl).2.2.2.2.1 (Or.inr rfl),
   (error_response_shape.1 ElysiaCode.PARSE "bad body"
      { error_type := "PARSE", error := "bad body", docs := BASE_URL ++ "/docs" }
      rfl).2.2.1⟩

/-! Facts about the heap operations, used for the frame property. -/

theorem alloc_ref (h : JsHeap) (a : List Trivia) :
    (alloc h a).2 = h.arrays.length := rfl

theorem sortInPlace_ref (h : JsHeap) (r : Nat)
    (shuffle : List Trivia → List Trivia) :
    (sortInPlace h r shuffle).2 = r := rfl

theorem alloc_arrays_length (h : JsHeap) (a : List Trivia) :
    (alloc h a).1.arrays.length = h.arrays.length + 1 := by
  simp [alloc]

theorem sortInPlace_arrays_length (h : JsHeap) (r : Nat)
    (shuffle : List Trivia → List Trivia) :
    (sortInPlace h r shuffle).1.arrays.length = h.arrays.length := by
  simp [sortInPlace]

/-- Reading a freshly allocated array gives its contents. -/
theorem readArr_alloc_new (h : JsHeap) (a : List Trivia) :
    readArr (alloc h a).1 h.arrays.length = a := by
  simp [readArr, alloc, List.getD_eq_getElem?_getD, List.getElem?_concat_length]

/-- Allocation leaves every existing array unchanged. -/
theorem readArr_alloc_old (h : JsHeap) (a : List Trivia) (r : Nat)
    (hr : r < h.arrays.length) :
    readArr (alloc h a).1 r = readArr h r := by
  simp [readArr, alloc, List.getD_eq_getElem?_getD, List.getElem?_append_left hr]

/-- The in-place sort rearranges exactly its target array. -/
theorem readArr_sortInPlace_same (h : JsHeap) (r : Nat)
    (shuffle : List Trivia → List Trivia) (hr : r < h.arrays.length) :
    readArr (sortInPlace h r shuffle).1 r = shuffle (readArr h r) := by
  simp [readArr, sortInPlace, List.getD_eq_getElem?_getD, List.getElem?_set, hr]

/-- The in-place sort leaves every other array unchanged. -/
theorem readArr_sortInPlace_ne (h : JsHeap) (r r2 : Nat)
    (shuffle : List Trivia → List Trivia) (hne : r ≠ r2) :
    readArr (sortInPlace h r shuffle).1 r2 = readArr h r2 := by
  simp [readArr, sortInPlace, List.getD_eq_getElem?_getD, List.getElem?_set_ne hne]

/-- C9: no request mutates the data store.  Over the heap model, running
the trivia pipeline on a valid reference `r` to the global trivia array
leaves the array at `r` unchanged (the in-place `sort` hits only the
fresh array allocated by `filter`), and the response array read at the
returned reference is exactly the functional filter/shuffle/truncate
pipeline; at the store level both request handlers return the store they
were given, so categories and trivia keep contents and order. -/
theorem requests_preserve_store (h : JsHeap) (r : Nat) (category : Nat)
    (difficulty : Difficulty) (limit : Nat) (shuffle : List Trivia → List Trivia)
    (st : Store) (q : Query)
    (hr : r < h.arrays.length) :
    readArr (triviaPipeline h r category difficulty limit shuffle).1 r =
      readArr h r ∧
    readArr (triviaPipeline h r category difficulty limit shuffle).1
        (triviaPipeline h r category difficulty limit shuffle).2 =
      (shuffle ((readArr h r).filter (matchesFilter category difficulty))).take limit ∧
    (triviaRequest st q shuffle).2 = st ∧
    (categoriesRequest st).2 = st := by
  refine ⟨?_, ?_, rfl, rfl⟩
  · simp only [triviaPipeline, sliceAlloc, filterAlloc, alloc_ref, sortInPlace_ref]
    rw [readArr_alloc_old, readArr_sortInPlace_ne, readArr_alloc_old h _ r hr]
    · omega
    · rw [sortInPlace_arrays_length, alloc_arrays_length]
      omega
  · simp only [triviaPipeline, sliceAlloc, filterAlloc, alloc_ref, sortInPlace_ref]
    rw [readArr_alloc_new, readArr_sortInPlace_same, readArr_alloc_new]
    rw [alloc_arrays_length]
    omega

/-- The one-array heap holding the sample trivia store. -/
def sampleHeap : JsHeap := { arrays := [sampleTrivia] }

/-- Witness for C9: running the pipeline of the request
`category=1&difficulty=easy&limit=2` over the one-array heap leaves the
global trivia array untouched. -/
theorem requests_preserve_store_witness :
    readArr (triviaPipeline sampleHeap 0 1 Difficulty.easy 2 id).1 0 =
      readArr sampleHeap 0 ∧
    (categoriesRequest { categories := sampleCategories, trivia := sampleTrivia }).2 =
      { categories := sampleCategories, trivia := sampleTrivia } :=
  ⟨(requests_preserve_store sampleHeap 0 1 Difficulty.easy 2 id
      { categories := sampleCategories, trivia := sampleTrivia } sampleQueryEasy
      (by decide)).1,
   (requests_preserve_store sampleHeap 0 1 Difficulty.easy 2 id
      { categories := sampleCategories, trivia := sampleTrivia } sampleQueryEasy
      (by decide)).2.2.2⟩

end TriviaTime
